import Mathlib

/-!
Verification of `src/app/youtube_downloader.py`.

The module wraps the external `yt_dlp` pipeline.  The pipeline, the base64
decoder and the filesystem are external collaborators; they are modelled as
explicit inputs gathered in a `World` record, and the orchestration logic of
the source file is embedded as pure Lean functions over that record.
-/

namespace YoutubeDownloader

/-- `PERSISTENT_COOKIE_PATH = "/mnt/data/cookies.txt"` from the source. -/
def PERSISTENT_COOKIE_PATH : String := "/mnt/data/cookies.txt"

/-- `YT_DOWNLOAD_DIR = os.path.join(tempfile.gettempdir(), "yt_downloads")`;
`tempfile.gettempdir()` is modelled as `/tmp`. -/
def YT_DOWNLOAD_DIR : String := "/tmp/yt_downloads"

/-- Digits of `n` in base 10, most significant first; fuel-structural so that
the kernel can evaluate it.  Empty for `n = 0` (handled in `pyStrNat`). -/
def natToDigitsAux : Nat → Nat → List Char
  | 0, _ => []
  | fuel + 1, n =>
    if n = 0 then [] else natToDigitsAux fuel (n / 10) ++ [Nat.digitChar (n % 10)]

/-- Python `str(n)` for a natural number `n` (decimal representation). -/
def pyStrNat (n : Nat) : String :=
  if n = 0 then "0" else ⟨natToDigitsAux n n⟩

/-- Python truthiness of an `os.getenv` result: `None` and the empty string
are falsy, any non-empty string is truthy. -/
def pyTruthyEnv : Option String → Bool
  | none => false
  | some s => !s.isEmpty

/-- Metadata dictionary returned by `ydl.extract_info`.  `title` is the
optional `title` key (a string when present); `duration` distinguishes a
missing key (`none`), a key present with value `None` (`some none`) and a key
present with an integer value (`some (some d)`). -/
structure Info where
  title : Option String
  duration : Option (Option Int)
deriving Repr, DecidableEq

/-- `int(info.get('duration', 0))`: a missing key defaults to `0`; a key
present with value `None` makes `int(None)` raise `TypeError`; an integer
value is returned unchanged. -/
def pyIntOfGetDuration : Option (Option Int) → Except String Int
  | none => .ok 0
  | some none =>
      .error "int() argument must be a string, a bytes-like object or a real number, not NoneType"
  | some (some d) => .ok d

/-- A file in the output directory: bare filename and size in bytes. -/
structure FileEntry where
  name : String
  size : Nat
deriving Repr, DecidableEq

/-- `fnmatch` of the glob pattern `pre ++ "*" ++ suf` against a filename:
the name starts with `pre`, ends with `suf`, and is long enough that the
two occurrences do not overlap (`*` matches zero or more characters). -/
def globStarMatch (pre suf name : String) : Bool :=
  pre.data.isPrefixOf name.data && suf.data.isSuffixOf name.data
    && decide (pre.length + suf.length ≤ name.length)

/-- The first glob of result reconciliation: `yt_{task_id}_*.mp3`. -/
def mp3Pattern (task_id : Nat) (name : String) : Bool :=
  globStarMatch ("yt_" ++ pyStrNat task_id ++ "_") ".mp3" name

/-- The broadened glob of result reconciliation: `yt_{task_id}_*`. -/
def anyPattern (task_id : Nat) (name : String) : Bool :=
  globStarMatch ("yt_" ++ pyStrNat task_id ++ "_") "" name

/-- Python `f.endswith(('.mp3', '.m4a', '.wav'))`. -/
def audioExt (name : String) : Bool :=
  ".mp3".data.isSuffixOf name.data || ".m4a".data.isSuffixOf name.data
    || ".wav".data.isSuffixOf name.data

/-- The subset of the `ydl_opts` dictionary relevant to the claims, built by
`download_audio_from_url`. -/
structure YdlOpts where
  format : String
  format_sort : List String
  cookiefile : Option String
  preferredcodec : String
  preferredquality : String
  outtmpl : String
  socket_timeout : Nat
  external_downloader : String
  retries : Nat
  fragment_retries : Nat
  skip_unavailable_fragments : Bool
  ignore_errors : Bool
  no_check_certificate : Bool
  proxy : Option String
deriving Repr, DecidableEq

/-- External state and collaborators of one `download_audio_from_url` call:
the filesystem facts consulted during credential resolution, the environment
variables, the base64 decoder, the black-box pipeline, the snapshot of the
output directory after the pipeline ran, and whether `os.unlink` of the
temporary cookie file raises. -/
structure World where
  persistentCookieExists : Bool
  envCookiesB64 : Option String
  decodeB64 : String → Except String String
  tempName : String
  cwd : String
  cwdCookiesExists : Bool
  proxyUrl : Option String
  pipeline : YdlOpts → String → Except String (Option Info)
  postFiles : List FileEntry
  unlinkRaises : Bool

/-- Result of credential resolution: the cookie path handed to the pipeline
(if any) and whether a temporary file was created from the environment
variable. -/
structure CookieRes where
  cookiePath : Option String
  tempCreated : Bool
deriving Repr, DecidableEq

/-- Whether `base64.b64decode(...).decode('utf-8')` of the environment
variable succeeds. -/
def decodeOkB (w : World) : Bool :=
  match w.decodeB64 ((w.envCookiesB64).getD "") with
  | .ok _ => true
  | .error _ => false

/-- The credential-resolution `if`/`elif` chain at the top of
`download_audio_from_url`.  In branch 2 the temporary file is created before
decoding, so a decode failure still leaves a temporary file behind (deleted
by the `finally` block) while `cookie_path` stays unset. -/
def resolveCookies (w : World) : CookieRes :=
  if w.persistentCookieExists then
    { cookiePath := some PERSISTENT_COOKIE_PATH, tempCreated := false }
  else if pyTruthyEnv w.envCookiesB64 then
    match w.decodeB64 ((w.envCookiesB64).getD "") with
    | .ok _ => { cookiePath := some w.tempName, tempCreated := true }
    | .error _ => { cookiePath := none, tempCreated := true }
  else if w.cwdCookiesExists then
    { cookiePath := some (w.cwd ++ "/cookies.txt"), tempCreated := false }
  else
    { cookiePath := none, tempCreated := false }

/-- The `ydl_opts` dictionary of `download_audio_from_url` (the fields the
claims are about), including the `output_template` and conditional `proxy`. -/
def buildOpts (w : World) (task_id : Nat) : YdlOpts :=
  { format := "bestaudio/best"
    format_sort := ["res:360"]
    cookiefile := (resolveCookies w).cookiePath
    preferredcodec := "mp3"
    preferredquality := "64"
    outtmpl := YT_DOWNLOAD_DIR ++ "/yt_" ++ pyStrNat task_id ++ "_%(title)s.%(ext)s"
    socket_timeout := 60
    external_downloader := "aria2c"
    retries := 10
    fragment_retries := 10
    skip_unavailable_fragments := true
    ignore_errors := false
    no_check_certificate := true
    proxy := if pyTruthyEnv w.proxyUrl then w.proxyUrl else none }

/-- Result reconciliation: `glob` for `yt_{task_id}_*.mp3`; if empty, `glob`
for `yt_{task_id}_*` filtered by the acceptable audio extensions. -/
def findDownloadedFiles (files : List FileEntry) (task_id : Nat) : List FileEntry :=
  let mp3s := files.filter (fun f => mp3Pattern task_id f.name)
  if mp3s.isEmpty then
    (files.filter (fun f => anyPattern task_id f.name)).filter (fun f => audioExt f.name)
  else
    mp3s

/-- The tuple returned by `download_audio_from_url` on success. -/
structure FetchResult where
  filePath : String
  title : String
  durationSeconds : Int
deriving Repr, DecidableEq

/-- `os.unlink`: either raises or removes the named file. -/
def osUnlink (raises : Bool) (name : String) (files : List String) :
    Except String (List String) :=
  if raises then .error "unlink failed" else .ok (files.filter (fun f => f ≠ name))

/-- The `finally` block: if a temporary cookie file was created and still
exists, try to `os.unlink` it, swallowing any error.  Returns the temporary
files still on disk after the call. -/
def cleanupTempCookie (w : World) (cr : CookieRes) : List String :=
  if cr.tempCreated then
    match osUnlink w.unlinkRaises w.tempName [w.tempName] with
    | .ok fs => fs
    | .error _ => [w.tempName]
  else
    []

/-- Observable outcome of one `download_audio_from_url` call: the returned
tuple or the raised `ValueError` (the `DownloadError` of the spec, carrying
its message), whether a temporary cookie file was created, and which
temporary files remain on disk after the `finally` block ran. -/
structure FetchOutcome where
  result : Except String FetchResult
  tempCookieCreated : Bool
  tempFilesAfter : List String
deriving Repr

/-- Shallow embedding of `download_audio_from_url`: credential resolution,
option assembly, the pipeline call, metadata extraction, result
reconciliation, the uniform `except` re-raise, and the `finally` cleanup. -/
def download_audio_from_url (w : World) (url : String) (task_id : Nat) : FetchOutcome :=
  let cr := resolveCookies w
  let opts := buildOpts w task_id
  let body : Except String FetchResult :=
    match w.pipeline opts url with
    | .error e => .error e
    | .ok none => .error "Failed to extract video information"
    | .ok (some info) =>
      let title := info.title.getD "Unknown"
      match pyIntOfGetDuration info.duration with
      | .error e => .error e
      | .ok duration =>
        match findDownloadedFiles w.postFiles task_id with
        | [] => .error "Downloaded file not found"
        | f :: _ =>
          .ok { filePath := YT_DOWNLOAD_DIR ++ "/" ++ f.name
                title := title
                durationSeconds := duration }
  { result :=
      match body with
      | .ok r => .ok r
      | .error e => .error ("Failed to download from URL: " ++ e)
    tempCookieCreated := cr.tempCreated
    tempFilesAfter := cleanupTempCookie w cr }

/-- Python `str.strip()`: remove whitespace from both ends of a string. -/
def pyStrip (s : String) : String :=
  ⟨((s.data.dropWhile Char.isWhitespace).reverse.dropWhile Char.isWhitespace).reverse⟩

/-- Shallow embedding of `extract_title_only`, as a function of the outcome
of the offloaded `ydl.extract_info` call: an exception (`Except.error`), a
falsy `info` (`Except.ok none`), or a metadata dictionary. -/
def extract_title_only (ext : Except String (Option Info)) : Option String :=
  match ext with
  | .error _ => none
  | .ok none => none
  | .ok (some info) =>
    match info.title with
    | some t => some (pyStrip t)
    | none => none

/-- Shallow embedding of `validate_video_url`, as a function of the outcome
of the simulated `ydl.extract_info` call. -/
def validate_video_url (ext : Except String Info) : Bool :=
  match ext with
  | .ok _ => true
  | .error _ => false

/-- A filename produced by `yt_dlp` under the output template
`yt_<taskId>_%(title)s.%(ext)s` after substituting title and extension. -/
def templateOutput (task_id : Nat) (title ext : String) : String :=
  "yt_" ++ pyStrNat task_id ++ "_" ++ title ++ "." ++ ext

/-- Numeric value of a decimal digit character. -/
def digitVal (c : Char) : Nat := c.toNat - 48

/-- Numeric value of a big-endian list of decimal digit characters. -/
def digitsVal (l : List Char) : Nat := l.foldl (fun a c => 10 * a + digitVal c) 0

/-- Base64 decoder that always succeeds (for concrete worlds). -/
def okDecode : String → Except String String := fun s => .ok s

/-- Base64 decoder that always fails (for concrete worlds). -/
def badDecode : String → Except String String := fun _ => .error "Invalid base64-encoded string"

/-- Metadata with a title and an integer duration (for concrete worlds). -/
def infoTD : Info := { title := some "T", duration := some (some 42) }

/-- Pipeline that succeeds with the given metadata regardless of input. -/
def pipeOf (i : Info) : YdlOpts → String → Except String (Option Info) :=
  fun _ _ => .ok (some i)

/-- Concrete world: persistent cookies present, pipeline succeeds with
`infoTD`, one matching output file. -/
def baseWorld : World :=
  { persistentCookieExists := true
    envCookiesB64 := none
    decodeB64 := okDecode
    tempName := "/tmp/tmpabc123.txt"
    cwd := "/srv/app"
    cwdCookiesExists := false
    proxyUrl := none
    pipeline := pipeOf infoTD
    postFiles := [{ name := "yt_7_T.mp3", size := 100 }]
    unlinkRaises := false }

/-- Concrete world: the pipeline reports `duration = None`. -/
def wDurNone : World :=
  { baseWorld with pipeline := pipeOf { title := some "T", duration := some none } }

/-- Concrete world: the pipeline reports a negative duration. -/
def wDurNeg : World :=
  { baseWorld with pipeline := pipeOf { title := some "T", duration := some (some (-5)) } }

/-- Concrete world: the output directory ends up empty. -/
def wNoFiles : World := { baseWorld with postFiles := [] }

/-- Concrete world: no persistent cookies, environment variable set but its
base64 decoding fails, and a `cookies.txt` exists in the working
directory. -/
def wDecodeFail : World :=
  { baseWorld with
      persistentCookieExists := false
      envCookiesB64 := some "QUJD"
      decodeB64 := badDecode
      cwdCookiesExists := true }

/-- Concrete world: no persistent cookies, environment variable set and
decodable. -/
def wEnvOk : World :=
  { baseWorld with
      persistentCookieExists := false
      envCookiesB64 := some "QUJD" }

/-- Concrete world: the only matching output file is zero bytes long. -/
def wEmptyFile : World :=
  { baseWorld with postFiles := [{ name := "yt_7_T.mp3", size := 0 }] }

/-- Concrete world: the pipeline raises. -/
def wPipeFail : World :=
  { baseWorld with pipeline := fun _ _ => .error "boom" }

/-! ### Properties of the decimal representation `pyStrNat` -/

lemma digitChar_isDigit : ∀ d, d < 10 → (Nat.digitChar d).isDigit = true := by decide

lemma digitVal_digitChar : ∀ d, d < 10 → digitVal (Nat.digitChar d) = d := by decide

lemma natToDigitsAux_isDigit :
    ∀ fuel n, ∀ c ∈ natToDigitsAux fuel n, c.isDigit = true := by
  intro fuel
  induction fuel with
  | zero => intro n c hc; simp [natToDigitsAux] at hc
  | succ fuel ih =>
    intro n c hc
    by_cases hn : n = 0
    · simp [natToDigitsAux, hn] at hc
    · simp only [natToDigitsAux, hn, if_false, List.mem_append, List.mem_singleton] at hc
      rcases hc with hc | hc
      · exact ih _ c hc
      · subst hc
        exact digitChar_isDigit _ (Nat.mod_lt _ (by norm_num))

lemma natToDigitsAux_val :
    ∀ fuel n, n ≤ fuel → digitsVal (natToDigitsAux fuel n) = n := by
  intro fuel
  induction fuel with
  | zero =>
    intro n hn
    have : n = 0 := Nat.le_zero.mp hn
    subst this
    simp [natToDigitsAux, digitsVal]
  | succ fuel ih =>
    intro n hn
    by_cases h0 : n = 0
    · subst h0; simp [natToDigitsAux, digitsVal]
    · have hdiv : n / 10 < n := Nat.div_lt_self (Nat.pos_of_ne_zero h0) (by norm_num)
      have hfuel : n / 10 ≤ fuel := by omega
      simp only [natToDigitsAux, h0, if_false, digitsVal, List.foldl_append, List.foldl_cons,
        List.foldl_nil]
      have hrec := ih (n / 10) hfuel
      simp only [digitsVal] at hrec
      rw [hrec, digitVal_digitChar _ (Nat.mod_lt _ (by norm_num))]
      omega

lemma pyStrNat_val (n : Nat) : digitsVal (pyStrNat n).data = n := by
  by_cases hn : n = 0
  · subst hn
    have h0 : (pyStrNat 0).data = ['0'] := rfl
    rw [h0]
    decide
  · have h1 : (pyStrNat n).data = natToDigitsAux n n := by
      simp [pyStrNat, hn]
    rw [h1]
    exact natToDigitsAux_val n n le_rfl

lemma pyStrNat_inj {a b : Nat} (h : pyStrNat a = pyStrNat b) : a = b := by
  have h2 := congrArg (fun s => digitsVal s.data) h
  simpa [pyStrNat_val] using h2

lemma pyStrNat_isDigit (n : Nat) : ∀ c ∈ (pyStrNat n).data, c.isDigit = true := by
  by_cases hn : n = 0
  · subst hn
    intro c hc
    have h0 : (pyStrNat 0).data = ['0'] := rfl
    rw [h0] at hc
    simp at hc
    subst hc
    decide
  · intro c hc
    have h1 : (pyStrNat n).data = natToDigitsAux n n := by
      simp [pyStrNat, hn]
    rw [h1] at hc
    exact natToDigitsAux_isDigit n n c hc

/-- Two runs of decimal digits, each terminated by `'_'`, can only agree as
prefixes when the runs are equal: digits never contain `'_'`. -/
lemma digitRun_prefix :
    ∀ xs ys rest : List Char, (∀ c ∈ xs, c.isDigit = true) → (∀ c ∈ ys, c.isDigit = true) →
      (xs ++ ['_']) <+: (ys ++ '_' :: rest) → xs = ys := by
  intro xs
  induction xs with
  | nil =>
    intro ys rest _ hy h
    cases ys with
    | nil => rfl
    | cons y ys =>
      rw [List.nil_append, List.cons_append] at h
      rcases List.cons_prefix_cons.mp h with ⟨h1, _⟩
      have hd := hy y (by simp)
      rw [← h1] at hd
      exact absurd hd (by decide)
  | cons x xs ih =>
    intro ys rest hx hy h
    cases ys with
    | cons y ys =>
      rw [List.cons_append, List.cons_append] at h
      rcases List.cons_prefix_cons.mp h with ⟨h1, h2⟩
      have heq := ih ys rest (fun c hc => hx c (by simp [hc])) (fun c hc => hy c (by simp [hc])) h2
      rw [h1, heq]
    | nil =>
      rw [List.cons_append, List.nil_append] at h
      rcases List.cons_prefix_cons.mp h with ⟨h1, _⟩
      have hd := hx x (by simp)
      rw [h1] at hd
      exact absurd hd (by decide)

/-- The discovery prefix of task `a` is never a prefix of a filename produced
under the output template of a different task `b`. -/
lemma scopePrefix_not_prefix {a b : Nat} (hne : a ≠ b) (rest : List Char) :
    ¬ ("yt_" ++ pyStrNat a ++ "_").data <+: ("yt_" ++ pyStrNat b ++ "_").data ++ rest := by
  intro h
  have ha : ("yt_" ++ pyStrNat a ++ "_").data
      = "yt_".data ++ ((pyStrNat a).data ++ ['_']) := by
    simp [String.data_append]
  have hb : ("yt_" ++ pyStrNat b ++ "_").data ++ rest
      = "yt_".data ++ ((pyStrNat b).data ++ '_' :: rest) := by
    simp [String.data_append]
  rw [ha, hb, List.prefix_append_right_inj] at h
  have heq := digitRun_prefix _ _ _ (pyStrNat_isDigit a) (pyStrNat_isDigit b) h
  exact hne (pyStrNat_inj (String.ext heq))

/-- String-level version of `scopePrefix_not_prefix` for template outputs. -/
lemma scope_isPrefixOf_templateOutput {a b : Nat} (hne : a ≠ b) (t e : String) :
    (("yt_" ++ pyStrNat a ++ "_").data).isPrefixOf (templateOutput b t e).data = false := by
  rw [Bool.eq_false_iff]
  intro h
  rw [List.isPrefixOf_iff_prefix] at h
  have ht : (templateOutput b t e).data
      = ("yt_" ++ pyStrNat b ++ "_").data ++ (t.data ++ '.' :: e.data) := by
    simp [templateOutput, String.data_append]
  rw [ht] at h
  exact scopePrefix_not_prefix hne _ h

/-! ### Claims -/

/-- Claim C7: `probeTitle` (`extract_title_only`) never lets a failure
escape: any exception during extraction yields `none`, a falsy `info` yields
`none`, a missing title field yields `none`, and a present non-empty title is
returned trimmed. -/
theorem C7_probe_title_safe (e : String) (info : Info) (t : String) :
    (extract_title_only (.error e) = none)
  ∧ (extract_title_only (.ok none) = none)
  ∧ (info.title = none → extract_title_only (.ok (some info)) = none)
  ∧ (info.title = some t → t ≠ "" → extract_title_only (.ok (some info)) = some (pyStrip t)) := by
  refine ⟨rfl, rfl, ?_, ?_⟩
  · intro h
    simp [extract_title_only, h]
  · intro h _
    simp [extract_title_only, h]

/-- Witness for C7 at concrete inputs. -/
theorem C7_probe_title_safe_witness :
    extract_title_only (.error "boom") = none
  ∧ extract_title_only (.ok (some { title := some " T ", duration := none })) = some "T" := by
  have h := C7_probe_title_safe "boom" { title := some " T ", duration := none } " T "
  exact ⟨h.1, by rw [h.2.2.2 rfl (by decide)]; rfl⟩

/-- Claim C8: `isSupported` (`validate_video_url`) returns `true` exactly
when the simulated extraction completes without an exception, `false` on any
exception; it is a total function of the extraction outcome. -/
theorem C8_validator_total (ext : Except String Info) :
    validate_video_url ext = ext.toOption.isSome := by
  cases ext <;> rfl

/-- Claim C2: credential resolution follows the four-way precedence with
first match winning: persistent file (even when the environment variable is
set), then the environment variable (Python-truthy, i.e. set and non-empty),
then the working-directory `cookies.txt`, else no credentials; the resolved
path is exactly what is handed to the pipeline as `cookiefile`. -/
theorem C2_credential_precedence (w : World) (task_id : Nat) :
    ((buildOpts w task_id).cookiefile = (resolveCookies w).cookiePath)
  ∧ (w.persistentCookieExists = true →
      resolveCookies w = { cookiePath := some PERSISTENT_COOKIE_PATH, tempCreated := false })
  ∧ (w.persistentCookieExists = false → pyTruthyEnv w.envCookiesB64 = true →
      decodeOkB w = true →
      resolveCookies w = { cookiePath := some w.tempName, tempCreated := true })
  ∧ (w.persistentCookieExists = false → pyTruthyEnv w.envCookiesB64 = false →
      w.cwdCookiesExists = true →
      resolveCookies w = { cookiePath := some (w.cwd ++ "/cookies.txt"), tempCreated := false })
  ∧ (w.persistentCookieExists = false → pyTruthyEnv w.envCookiesB64 = false →
      w.cwdCookiesExists = false →
      resolveCookies w = { cookiePath := none, tempCreated := false }) := by
  refine ⟨rfl, ?_, ?_, ?_, ?_⟩
  · intro h1
    simp [resolveCookies, h1]
  · intro h1 h2 h3
    simp only [resolveCookies, h1, Bool.false_eq_true, if_false, h2, if_true]
    revert h3
    unfold decodeOkB
    cases w.decodeB64 ((w.envCookiesB64).getD "") <;> simp
  · intro h1 h2 h3
    simp [resolveCookies, h1, h2, h3]
  · intro h1 h2 h3
    simp [resolveCookies, h1, h2, h3]

/-- Witness for C2: with the persistent file present and the environment
variable also set, the persistent path wins. -/
theorem C2_credential_precedence_witness :
    ((buildOpts { baseWorld with envCookiesB64 := some "QUJD" } 7).cookiefile
      = (resolveCookies { baseWorld with envCookiesB64 := some "QUJD" }).cookiePath)
  ∧ resolveCookies { baseWorld with envCookiesB64 := some "QUJD" }
      = { cookiePath := some PERSISTENT_COOKIE_PATH, tempCreated := false } := by
  have h := C2_credential_precedence { baseWorld with envCookiesB64 := some "QUJD" } 7
  exact ⟨h.1, h.2.1 rfl⟩

/-- Claim C10: when the cookie environment variable is set but decoding
fails, the fetch proceeds with no credentials at all (the cookie path stays
unset and the call behaves like a credential-less run), and the
working-directory `cookies.txt` is not consulted even when it exists. -/
theorem C10_decode_failure_proceeds (w : World) (url : String) (task_id : Nat)
    (h1 : w.persistentCookieExists = false)
    (h2 : pyTruthyEnv w.envCookiesB64 = true)
    (h3 : decodeOkB w = false)
    (_h4 : w.cwdCookiesExists = true) :
    (resolveCookies w).cookiePath = none
  ∧ (buildOpts w task_id).cookiefile = none
  ∧ (download_audio_from_url w url task_id).result
      = (download_audio_from_url
          { w with envCookiesB64 := none, cwdCookiesExists := false } url task_id).result := by
  have hres : resolveCookies w = { cookiePath := none, tempCreated := true } := by
    simp only [resolveCookies, h1, Bool.false_eq_true, if_false, h2, if_true]
    revert h3
    unfold decodeOkB
    cases w.decodeB64 ((w.envCookiesB64).getD "") <;> simp
  have hres2 : resolveCookies { w with envCookiesB64 := none, cwdCookiesExists := false }
      = { cookiePath := none, tempCreated := false } := by
    simp [resolveCookies, h1, pyTruthyEnv]
  have hopts : buildOpts w task_id
      = buildOpts { w with envCookiesB64 := none, cwdCookiesExists := false } task_id := by
    simp [buildOpts, hres, hres2]
  refine ⟨by rw [hres], by simp [buildOpts, hres], ?_⟩
  simp only [download_audio_from_url, ← hopts]

/-- Witness for C10 at a concrete world. -/
theorem C10_decode_failure_proceeds_witness :
    (resolveCookies wDecodeFail).cookiePath = none
  ∧ (buildOpts wDecodeFail 7).cookiefile = none
  ∧ (download_audio_from_url wDecodeFail "https://v" 7).result
      = (download_audio_from_url
          { wDecodeFail with envCookiesB64 := none, cwdCookiesExists := false }
          "https://v" 7).result :=
  C10_decode_failure_proceeds wDecodeFail "https://v" 7 rfl rfl rfl rfl

/-- Counterexample to C1: a pipeline-reported duration of `None` does not
yield `0` — `int(None)` raises and the whole fetch fails; and a
pipeline-reported negative duration is returned as is, so the result is not
always non-negative. -/
theorem C1_counterexample :
    (download_audio_from_url wDurNone "https://v" 7).result
      = .error "Failed to download from URL: int() argument must be a string, a bytes-like object or a real number, not NoneType"
  ∧ (download_audio_from_url wDurNeg "https://v" 7).result
      = .ok { filePath := "/tmp/yt_downloads/yt_7_T.mp3", title := "T", durationSeconds := -5 }
  ∧ ((-5 : Int) < 0) :=
  ⟨rfl, rfl, by decide⟩

/-- Claim C1 as amended: when the pipeline omits the duration key the
returned duration is `0`; when the pipeline reports an explicit `None` the
fetch fails with `DownloadError` instead of returning `0`; otherwise the
returned duration is exactly the reported integer (hence non-negative only
when the report is). -/
theorem C1_duration_amended (w : World) (url : String) (task_id : Nat) (info : Info)
    (f : FileEntry) (rest : List FileEntry) (d : Int)
    (hp : w.pipeline (buildOpts w task_id) url = .ok (some info))
    (hf : findDownloadedFiles w.postFiles task_id = f :: rest) :
    (info.duration = none →
      (download_audio_from_url w url task_id).result
        = .ok { filePath := YT_DOWNLOAD_DIR ++ "/" ++ f.name
                title := info.title.getD "Unknown", durationSeconds := 0 })
  ∧ (info.duration = some none →
      (download_audio_from_url w url task_id).result
        = .error "Failed to download from URL: int() argument must be a string, a bytes-like object or a real number, not NoneType")
  ∧ (info.duration = some (some d) →
      (download_audio_from_url w url task_id).result
        = .ok { filePath := YT_DOWNLOAD_DIR ++ "/" ++ f.name
                title := info.title.getD "Unknown", durationSeconds := d }) := by
  refine ⟨?_, ?_, ?_⟩ <;> intro hd <;>
    simp [download_audio_from_url, hp, hd, pyIntOfGetDuration, hf]

/-- Witness for the amended C1 at a concrete world. -/
theorem C1_duration_amended_witness :
    (download_audio_from_url baseWorld "https://v" 7).result
      = .ok { filePath := "/tmp/yt_downloads/yt_7_T.mp3", title := "T", durationSeconds := 42 } :=
  (C1_duration_amended baseWorld "https://v" 7 infoTD
    { name := "yt_7_T.mp3", size := 100 } [] 42 rfl rfl).2.2 rfl

/-- Claim C3: when the pipeline reports success but no file in the output
directory matches `yt_<taskId>_*.mp3`, and the broadened search filtered by
the acceptable audio extensions also finds nothing, the fetch fails with
`DownloadError` (file-not-found message). -/
theorem C3_missing_file_error (w : World) (url : String) (task_id : Nat) (info : Info)
    (hp : w.pipeline (buildOpts w task_id) url = .ok (some info))
    (hdur : info.duration ≠ some none)
    (h1 : w.postFiles.filter (fun f => mp3Pattern task_id f.name) = [])
    (h2 : (w.postFiles.filter (fun f => anyPattern task_id f.name)).filter
        (fun f => audioExt f.name) = []) :
    (download_audio_from_url w url task_id).result
      = .error "Failed to download from URL: Downloaded file not found" := by
  have hfind : findDownloadedFiles w.postFiles task_id = [] := by
    simp [findDownloadedFiles, h1, h2]
  rcases hd : info.duration with _ | od
  · simp [download_audio_from_url, hp, hd, pyIntOfGetDuration, hfind]
  · rcases od with _ | d
    · exact absurd hd hdur
    · simp [download_audio_from_url, hp, hd, pyIntOfGetDuration, hfind]

/-- Witness for C3 at a concrete world whose output directory is empty. -/
theorem C3_missing_file_error_witness :
    (download_audio_from_url wNoFiles "https://v" 7).result
      = .error "Failed to download from URL: Downloaded file not found" :=
  C3_missing_file_error wNoFiles "https://v" 7 infoTD rfl (by decide) rfl rfl

/-- Counterexample to C4: a credential decode failure is not re-raised as
`DownloadError` — the fetch swallows it and succeeds. -/
theorem C4_counterexample :
    decodeOkB wDecodeFail = false
  ∧ (download_audio_from_url wDecodeFail "https://v" 7).result
      = .ok { filePath := "/tmp/yt_downloads/yt_7_T.mp3", title := "T", durationSeconds := 42 } :=
  ⟨rfl, rfl⟩

/-- Claim C4 as amended: every failure inside the main download block —
pipeline failure, null metadata, duration coercion failure, missing output
file — is re-raised uniformly as `DownloadError` carrying the original
message; a credential decode failure, by contrast, is caught and swallowed:
the fetch proceeds with no credentials. -/
theorem C4_uniform_error_amended (w : World) (url : String) (task_id : Nat)
    (e : String) (info : Info) :
    (w.pipeline (buildOpts w task_id) url = .error e →
      (download_audio_from_url w url task_id).result
        = .error ("Failed to download from URL: " ++ e))
  ∧ (w.pipeline (buildOpts w task_id) url = .ok none →
      (download_audio_from_url w url task_id).result
        = .error ("Failed to download from URL: Failed to extract video information"))
  ∧ (w.pipeline (buildOpts w task_id) url = .ok (some info) → info.duration = some none →
      (download_audio_from_url w url task_id).result
        = .error ("Failed to download from URL: int() argument must be a string, a bytes-like object or a real number, not NoneType"))
  ∧ (w.pipeline (buildOpts w task_id) url = .ok (some info) → info.duration ≠ some none →
      findDownloadedFiles w.postFiles task_id = [] →
      (download_audio_from_url w url task_id).result
        = .error ("Failed to download from URL: Downloaded file not found"))
  ∧ (w.persistentCookieExists = false → pyTruthyEnv w.envCookiesB64 = true →
      decodeOkB w = false → (buildOpts w task_id).cookiefile = none) := by
  refine ⟨?_, ?_, ?_, ?_, ?_⟩
  · intro hp
    simp [download_audio_from_url, hp]
  · intro hp
    simp [download_audio_from_url, hp]
  · intro hp hd
    simp [download_audio_from_url, hp, hd, pyIntOfGetDuration]
  · intro hp hd hfind
    rcases hdc : info.duration with _ | od
    · simp [download_audio_from_url, hp, hdc, pyIntOfGetDuration, hfind]
    · rcases od with _ | d
      · exact absurd hdc hd
      · simp [download_audio_from_url, hp, hdc, pyIntOfGetDuration, hfind]
  · intro h1 h2 h3
    have hres : resolveCookies w = { cookiePath := none, tempCreated := true } := by
      simp only [resolveCookies, h1, Bool.false_eq_true, if_false, h2, if_true]
      revert h3
      unfold decodeOkB
      cases w.decodeB64 ((w.envCookiesB64).getD "") <;> simp
    simp [buildOpts, hres]

/-- Witness for the amended C4: a pipeline failure surfaces with the uniform
prefix and the original message; a decode failure leaves `cookiefile`
unset. -/
theorem C4_uniform_error_amended_witness :
    (download_audio_from_url wPipeFail "https://v" 7).result
      = .error "Failed to download from URL: boom"
  ∧ (buildOpts wDecodeFail 7).cookiefile = none :=
  ⟨(C4_uniform_error_amended wPipeFail "https://v" 7 "boom" infoTD).1 rfl,
   (C4_uniform_error_amended wDecodeFail "https://v" 7 "boom" infoTD).2.2.2.2 rfl rfl rfl⟩

/-- Counterexample to C5: the returned path may refer to an empty (zero
byte) file — the code never checks the size it reads. -/
theorem C5_counterexample :
    (download_audio_from_url wEmptyFile "https://v" 7).result
      = .ok { filePath := "/tmp/yt_downloads/yt_7_T.mp3", title := "T", durationSeconds := 42 }
  ∧ wEmptyFile.postFiles = [{ name := "yt_7_T.mp3", size := 0 }] :=
  ⟨rfl, rfl⟩

/-- Claim C5 as amended: given a successful pipeline run and a single file
matching `yt_<taskId>_*.mp3`, the fetch returns exactly that file's path (a
file present in the output directory — emptiness is not checked), with title
from the metadata (defaulting to `Unknown`) and duration from the
metadata. -/
theorem C5_success_amended (w : World) (url : String) (task_id : Nat) (info : Info)
    (d : Int) (f : FileEntry)
    (hp : w.pipeline (buildOpts w task_id) url = .ok (some info))
    (hd : info.duration = some (some d))
    (hf : w.postFiles.filter (fun g => mp3Pattern task_id g.name) = [f]) :
    (download_audio_from_url w url task_id).result
      = .ok { filePath := YT_DOWNLOAD_DIR ++ "/" ++ f.name
              title := info.title.getD "Unknown", durationSeconds := d }
  ∧ f ∈ w.postFiles
  ∧ mp3Pattern task_id f.name = true := by
  have hmem : f ∈ w.postFiles.filter (fun g => mp3Pattern task_id g.name) := by
    rw [hf]; exact List.mem_singleton.mpr rfl
  have hfind : findDownloadedFiles w.postFiles task_id = [f] := by
    simp [findDownloadedFiles, hf]
  refine ⟨?_, (List.mem_filter.mp hmem).1, by simpa using (List.mem_filter.mp hmem).2⟩
  simp [download_audio_from_url, hp, hd, pyIntOfGetDuration, hfind]

/-- Witness for the amended C5 at a concrete world. -/
theorem C5_success_amended_witness :
    (download_audio_from_url baseWorld "https://v" 7).result
      = .ok { filePath := "/tmp/yt_downloads/yt_7_T.mp3", title := "T", durationSeconds := 42 }
  ∧ ({ name := "yt_7_T.mp3", size := 100 } : FileEntry) ∈ baseWorld.postFiles
  ∧ mp3Pattern 7 "yt_7_T.mp3" = true :=
  C5_success_amended baseWorld "https://v" 7 infoTD 42
    { name := "yt_7_T.mp3", size := 100 } rfl rfl rfl

/-- Claim C6: whenever a temporary credential file was created from the
environment variable, the `finally` cleanup deletes it before the call
returns (when `os.unlink` does not itself fail), and a failing deletion is
swallowed: it changes nothing about the call's result. -/
theorem C6_temp_cleanup (w : World) (url : String) (task_id : Nat)
    (h : (resolveCookies w).tempCreated = true) :
    ((download_audio_from_url w url task_id).tempCookieCreated = true)
  ∧ (w.unlinkRaises = false → (download_audio_from_url w url task_id).tempFilesAfter = [])
  ∧ ((download_audio_from_url { w with unlinkRaises := true } url task_id).result
       = (download_audio_from_url w url task_id).result) := by
  refine ⟨h, ?_, ?_⟩
  · intro hu
    simp [download_audio_from_url, cleanupTempCookie, h, osUnlink, hu]
  · simp [download_audio_from_url, buildOpts, resolveCookies]

/-- Witness for C6 at a concrete world where the environment variable is the
credential source. -/
theorem C6_temp_cleanup_witness :
    (download_audio_from_url wEnvOk "https://v" 7).tempCookieCreated = true
  ∧ (download_audio_from_url wEnvOk "https://v" 7).tempFilesAfter = []
  ∧ (download_audio_from_url { wEnvOk with unlinkRaises := true } "https://v" 7).result
      = (download_audio_from_url wEnvOk "https://v" 7).result := by
  have h := C6_temp_cleanup wEnvOk "https://v" 7 rfl
  exact ⟨h.1, h.2.1 rfl, h.2.2⟩

/-- Claim C9: the pipeline's output filename template is
`yt_<taskId>_%(title)s.%(ext)s` inside the output directory, and discovery
is scoped to the same taskId prefix: for distinct task ids `a ≠ b`, neither
discovery pattern of task `a` matches any filename produced under task `b`'s
template, so discovery for `a` never returns such a file. -/
theorem C9_task_scoping (w : World) (a b : Nat) (t e : String) (f : FileEntry)
    (hne : a ≠ b) :
    ((buildOpts w a).outtmpl
        = YT_DOWNLOAD_DIR ++ "/yt_" ++ pyStrNat a ++ "_%(title)s.%(ext)s")
  ∧ mp3Pattern a (templateOutput b t e) = false
  ∧ anyPattern a (templateOutput b t e) = false
  ∧ (f ∈ findDownloadedFiles w.postFiles a → f.name ≠ templateOutput b t e) := by
  have hpre := scope_isPrefixOf_templateOutput hne t e
  have hmp3 : mp3Pattern a (templateOutput b t e) = false := by
    unfold mp3Pattern globStarMatch
    rw [hpre]
    rfl
  have hany : anyPattern a (templateOutput b t e) = false := by
    unfold anyPattern globStarMatch
    rw [hpre]
    rfl
  refine ⟨rfl, hmp3, hany, ?_⟩
  intro hm heq
  simp only [findDownloadedFiles] at hm
  split at hm
  · have := (List.mem_filter.mp (List.mem_filter.mp hm).1).2
    rw [heq] at this
    simp [hany] at this
  · have := (List.mem_filter.mp hm).2
    rw [heq] at this
    simp [hmp3] at this

/-- Witness for C9 at concrete distinct task ids. -/
theorem C9_task_scoping_witness :
    (buildOpts baseWorld 1).outtmpl = "/tmp/yt_downloads/yt_1_%(title)s.%(ext)s"
  ∧ mp3Pattern 1 (templateOutput 2 "T" "mp3") = false
  ∧ anyPattern 1 (templateOutput 2 "T" "mp3") = false := by
  have h := C9_task_scoping baseWorld 1 2 "T" "mp3" { name := "z", size := 0 } (by decide)
  exact ⟨h.1, h.2.1, h.2.2.1⟩

end YoutubeDownloader
